import Mathlib

/-!
# Verification of the sqltest test-runner core

Shallow embedding of the test-case execution pipeline of
`github.com/kovetskiy/sqltest` (Go).  The effectful Go code (`Run`, `exec`,
`runSetup`, `runTeardown`, `runDiff`, `ensureFileExists`, `copyFile`,
`approved`, `match`, `filter`, `updateDatabaseURI`) is embedded as pure Lean
functions over:

* a `World` record that fixes the outcome of every external effect performed
  during one `Run` invocation (database create/drop success, hook exit
  statuses, `psql` exit status and captured stdout, file-system call
  successes, `diff` tool exit status and stdout);
* an `FS` record holding the contents of the two files the pipeline touches
  (the expected-output file and the actual-output file), `none` = absent;
* a trace (`List Event`) of the externally visible actions, in order.

External collaborators (Go's `regexp` package, `net/url` parsing) are
abstracted: regex compilation validity and regex matching are oracle
parameters `rvalid`/`rmatch`, and connection URIs are manipulated after
parsing, on a `GoURL` record mirroring the fields of `net/url.URL` used by
the program.
-/

namespace Sqltest

/-- One test case, as produced by `LoadTestcases` (main.go): `Name` is the
filename with a trailing `.sql` stripped, `Filename` the original entry. -/
structure Testcase where
  Name : String
  Filename : String
deriving DecidableEq, Repr

/-- The command-line arguments relevant to one `Run` (struct `Arguments`). -/
structure Arguments where
  valueDirIn : String
  valueDirExpected : String
  valueSetup : String
  valueTeardown : String
  valueApprove : String
  valueRun : String
deriving DecidableEq, Repr

/-- Result of a Go call that can panic: either a value or a panic with a
message.  Go's `regexp.MustCompile` panics on an invalid pattern; there is no
error-return channel. -/
inductive GoResult (α : Type) where
  | ok (val : α)
  | panicked (msg : String)
deriving DecidableEq, Repr

/-- Wall-clock instant at second resolution, the part of Go's `time.Time`
consumed by the layout string `"20060102150405"`. -/
structure GoTime where
  year : Nat
  month : Nat
  day : Nat
  hour : Nat
  minute : Nat
  second : Nat
deriving DecidableEq, Repr

/-- The decimal digit character for `d` (Go's zero-padded `%d` rendering works
digit by digit; fields of a `time.Time` are in range). -/
def digitChar (d : Nat) : Char := Char.ofNat (48 + d)

/-- Two-digit zero-padded rendering of a field (Go layout `01`, `02`, `15`,
`04`, `05`).  Faithful to Go's `appendInt(..., 2)` for values below 100,
which `time.Time` guarantees for month, day, hour, minute and second. -/
def twoDigits (n : Nat) : List Char := [digitChar (n / 10), digitChar (n % 10)]

/-- Four-digit zero-padded rendering of the year (Go layout `2006`).
Faithful to Go for years below 10000. -/
def fourDigits (n : Nat) : List Char :=
  [digitChar (n / 1000), digitChar (n / 100 % 10), digitChar (n / 10 % 10), digitChar (n % 10)]

/-- `time.Now().Format("20060102150405")` (main.go line 197 / part_000
line 201): fourteen digits, year then month, day, hour, minute, second. -/
def goTimeFormat14 (t : GoTime) : String :=
  String.mk (fourDigits t.year ++ twoDigits t.month ++ twoDigits t.day ++
    twoDigits t.hour ++ twoDigits t.minute ++ twoDigits t.second)

/-- The per-test-case database name: `"sqltest_" + time.Now().Format("20060102150405")`
(`Run`, part_000 line 201).  The only entropy is the wall-clock second. -/
def dbNameOf (t : GoTime) : String := "sqltest_" ++ goTimeFormat14 t

/-- The fields of Go's `net/url.URL` that a PostgreSQL connection URI uses
(hierarchical URL with an authority; `Host` includes the port, as in Go). -/
structure GoURL where
  scheme : String
  userinfo : Option String
  host : String
  path : String
  rawQuery : String
  fragment : String
deriving DecidableEq, Repr

/-- `updateDatabaseURI` (part_000 lines 395-404) after the successful
`url.Parse`: the parsed URL's `Path` is set to `"/" + dbname` and nothing
else is touched before `uri.String()` re-renders it. -/
def updateDatabaseURI (uri : GoURL) (dbname : String) : GoURL :=
  { uri with path := "/" ++ dbname }

/-- Rendering of a hierarchical `GoURL` back to a string, as
`net/url.URL.String` does for URLs with a scheme and an authority (escaping
is omitted: database names produced by this program are alphanumeric). -/
def urlString (u : GoURL) : String :=
  u.scheme ++ "://" ++
    (match u.userinfo with
     | some ui => ui ++ "@"
     | none => "") ++
    u.host ++ u.path ++
    (if u.rawQuery = "" then "" else "?" ++ u.rawQuery) ++
    (if u.fragment = "" then "" else "#" ++ u.fragment)

/-- The environment-variable contract handed to every setup/teardown hook by
`runExternal` (part_000 lines 252-274): the six `SQLTEST_TESTCASE_*`
variables, in field form. -/
structure EnvContract where
  databaseName : String
  databaseURI : String
  testcaseName : String
  testcaseFilename : String
  dirIn : String
  dirExpected : String
deriving DecidableEq, Repr

/-- The environment contract built by `runExternal` for a given test case and
provisioned database name.  `adminURL` is the parsed form of the `--db`
connection string (`dbConfig.ConnString()` returns the original string, so
`updateDatabaseURI` re-parses exactly that). -/
def hookEnv (args : Arguments) (adminURL : GoURL) (tc : Testcase) (dbname : String) :
    EnvContract :=
  { databaseName := dbname
    databaseURI := urlString (updateDatabaseURI adminURL dbname)
    testcaseName := tc.Name
    testcaseFilename := tc.Filename
    dirIn := args.valueDirIn
    dirExpected := args.valueDirExpected }

/-- Contents of the two files one `Run` touches: the expected-output file
(in `<expected>/<Filename>`) and the actual-output file (in the temporary
output directory).  `none` means the file is absent. -/
structure FS where
  expected : Option String
  actual : Option String
deriving DecidableEq, Repr

/-- Outcome of every external effect one `Run` invocation performs, fixed up
front: whether each call succeeds and what the external processes print. -/
structure World where
  /-- wall-clock instant sampled by `time.Now()` at the top of `Run` -/
  now : GoTime
  /-- `CREATE DATABASE` succeeds -/
  createOK : Bool
  /-- `DROP DATABASE` (deferred) succeeds -/
  dropOK : Bool
  /-- setup hook exits zero -/
  setupOK : Bool
  /-- teardown hook exits zero -/
  teardownOK : Bool
  /-- `os.Create` of the actual-output file succeeds -/
  createActualOK : Bool
  /-- `cmd.StdoutPipe()` succeeds -/
  stdoutPipeOK : Bool
  /-- `cmd.StderrPipe()` succeeds -/
  stderrPipeOK : Bool
  /-- `psql` exits zero -/
  psqlOK : Bool
  /-- what `psql` writes to stdout (drained into the actual-output file even
  on a non-zero exit: partial output is retained) -/
  psqlOut : String
  /-- `out.Sync()` succeeds -/
  syncOK : Bool
  /-- `os.Stat` of the expected file behaves normally (reports existence or
  `ErrNotExist`) rather than failing with an abnormal error -/
  statOK : Bool
  /-- `os.Create` of the absent expected file succeeds -/
  createExpectedOK : Bool
  /-- `copyFile`: `os.Open(src)` succeeds -/
  copyOpenOK : Bool
  /-- `copyFile`: `os.Create(dst)` succeeds -/
  copyCreateOK : Bool
  /-- `copyFile`: `io.Copy` + `out.Sync()` succeed -/
  copyDataOK : Bool
  /-- the `diff -u` child exits zero -/
  diffExitOK : Bool
  /-- what `diff -u` prints on stdout -/
  diffStdout : String
deriving DecidableEq, Repr

/-- Externally visible actions of one `Run`, in the order performed. -/
inductive Event where
  | createDatabase (name : String)
  | runSetup (env : EnvContract)
  | createActual
  | runPsql
  | createExpected
  | approveCopy
  | runDiffCmd
  | runTeardown (env : EnvContract)
  | dropDatabase (name : String) (ok : Bool)
deriving DecidableEq, Repr

/-- The distinct failure returns of `Run`/`exec`, one per `return` site,
keeping the karma context that identifies the failing stage; the
`diffNotEmpty` failure carries the diff text
(`karma.Describe("diff", ...)`, part_000 lines 348-352). -/
inductive RunError where
  | createDatabase
  | runSetup
  | createActual
  | stdoutPipe
  | stderrPipe
  | psql
  | syncActual
  | statExpected
  | createExpected
  | copyApprove
  | diffCommand
  | diffNotEmpty (diff : String)
  | runTeardown
deriving DecidableEq, Repr

/-- Terminal status of one `Run`: a nil error (pass), a non-nil error
(fail), or a Go panic propagating out of `Run` (deferred calls still ran). -/
inductive Status where
  | passed
  | failed (e : RunError)
  | panicked (msg : String)
deriving DecidableEq, Repr

/-- The panic message of `regexp.MustCompile` on an invalid pattern
(Go: `regexp: Compile(` quote `): ` parse error). -/
def regexpPanicMsg (pattern : String) : String :=
  "regexp: Compile(" ++ pattern ++ "): parse error"

/-- `match` (part_000 lines 444-448): `regexp.MustCompile(pattern)` followed
by `MatchString(value)`.  `rvalid` tells whether Go accepts the pattern,
`rmatch pattern value` what a compiled pattern matches; `MustCompile` panics
on an invalid pattern — the function has no error-return channel. -/
def matchT (rvalid : String → Bool) (rmatch : String → String → Bool)
    (value : String) (pattern : String) : GoResult Bool :=
  if rvalid pattern then GoResult.ok (rmatch pattern value)
  else GoResult.panicked (regexpPanicMsg pattern)

/-- `filter` (part_000 lines 432-442) applied to the `--run` predicate
`func(testcase) bool { return match(testcase.Name, args.ValueRun) }`
(part_000 lines 108-110).  The predicate is evaluated left to right; a panic
inside it aborts the whole filtering. -/
def filterRun (rvalid : String → Bool) (rmatch : String → String → Bool)
    (pattern : String) : List Testcase → GoResult (List Testcase)
  | [] => GoResult.ok []
  | tc :: rest =>
    match matchT rvalid rmatch tc.Name pattern with
    | GoResult.panicked m => GoResult.panicked m
    | GoResult.ok b =>
      match filterRun rvalid rmatch pattern rest with
      | GoResult.panicked m => GoResult.panicked m
      | GoResult.ok l => GoResult.ok (if b then tc :: l else l)

/-- `approved` (part_000 lines 357-365): an empty `--approve` is never
approved; otherwise `regexp.MustCompile(ValueApprove).MatchString(Name)`,
panicking on an invalid pattern. -/
def approvedT (rvalid : String → Bool) (rmatch : String → String → Bool)
    (args : Arguments) (name : String) : GoResult Bool :=
  if args.valueApprove = "" then GoResult.ok false
  else if rvalid args.valueApprove then
    GoResult.ok (rmatch args.valueApprove name)
  else GoResult.panicked (regexpPanicMsg args.valueApprove)

/-- `runDiff` (part_000 lines 367-379): run `diff -u expected actual`; on a
non-zero exit with empty stdout return the wrapped error, on a non-zero exit
with output return the captured stdout as the diff, on a zero exit return
nil. -/
def runDiffT (w : World) : Except RunError (Option String) :=
  if w.diffExitOK then Except.ok none
  else if w.diffStdout.length = 0 then Except.error RunError.diffCommand
  else Except.ok (some w.diffStdout)

/-- `ensureFileExists` (part_000 lines 381-393) on the expected file:
`os.Stat`; on `ErrNotExist`, `os.Create` it (empty); an abnormal stat error
is returned wrapped.  Returns the stage error if any, the file system after
the call, and the trace of this step. -/
def ensureExpectedT (w : World) (fs : FS) : Option RunError × FS × List Event :=
  if !w.statOK then (some RunError.statExpected, fs, [])
  else
    match fs.expected with
    | none =>
      if w.createExpectedOK then (none, { fs with expected := some "" }, [Event.createExpected])
      else (some RunError.createExpected, fs, [Event.createExpected])
    | some _ => (none, fs, [])

/-- `copyFile` (part_000 lines 406-430) from the actual file to the expected
file: open src, create dst (truncating it), `io.Copy`, `Sync`.  On success
the expected file holds exactly the actual file's bytes. -/
def copyFileT (w : World) (fs : FS) : Option RunError × FS :=
  if !w.copyOpenOK then (some RunError.copyApprove, fs)
  else if !w.copyCreateOK then (some RunError.copyApprove, fs)
  else if !w.copyDataOK then (some RunError.copyApprove, { fs with expected := some "" })
  else (none, { fs with expected := fs.actual })

/-- Result of the `exec` stage: its status, the file system afterwards, and
its trace. -/
structure ExecOut where
  status : Status
  fs : FS
  events : List Event
deriving DecidableEq, Repr

/-- `exec` (part_000 lines 276-355): create the actual-output file, wire the
pipes, run `psql -v ON_ERROR_STOP=1 -f <script> <uri>` with stdout drained
into the actual file, sync it, ensure the expected file exists, then either
approve (copy actual over expected, skipping the diff) or diff the two files
and fail when the diff is non-empty. -/
def execT (rvalid : String → Bool) (rmatch : String → String → Bool)
    (args : Arguments) (w : World) (tc : Testcase) (fs : FS) : ExecOut :=
  if !w.createActualOK then ⟨Status.failed RunError.createActual, fs, [Event.createActual]⟩
  else
    let fs1 : FS := { fs with actual := some "" }
    if !w.stdoutPipeOK then ⟨Status.failed RunError.stdoutPipe, fs1, [Event.createActual]⟩
    else if !w.stderrPipeOK then ⟨Status.failed RunError.stderrPipe, fs1, [Event.createActual]⟩
    else
      let fs2 : FS := { fs1 with actual := some w.psqlOut }
      if !w.psqlOK then ⟨Status.failed RunError.psql, fs2, [Event.createActual, Event.runPsql]⟩
      else if !w.syncOK then
        ⟨Status.failed RunError.syncActual, fs2, [Event.createActual, Event.runPsql]⟩
      else
        match ensureExpectedT w fs2 with
        | (some e, fs3, evs) =>
          ⟨Status.failed e, fs3, [Event.createActual, Event.runPsql] ++ evs⟩
        | (none, fs3, evs) =>
          match approvedT rvalid rmatch args tc.Name with
          | GoResult.panicked m =>
            ⟨Status.panicked m, fs3, [Event.createActual, Event.runPsql] ++ evs⟩
          | GoResult.ok true =>
            match copyFileT w fs3 with
            | (some e, fs4) =>
              ⟨Status.failed e, fs4,
                [Event.createActual, Event.runPsql] ++ evs ++ [Event.approveCopy]⟩
            | (none, fs4) =>
              ⟨Status.passed, fs4,
                [Event.createActual, Event.runPsql] ++ evs ++ [Event.approveCopy]⟩
          | GoResult.ok false =>
            match runDiffT w with
            | Except.error e =>
              ⟨Status.failed e, fs3,
                [Event.createActual, Event.runPsql] ++ evs ++ [Event.runDiffCmd]⟩
            | Except.ok d =>
              let dstr := d.getD ""
              if dstr.length > 0 then
                ⟨Status.failed (RunError.diffNotEmpty dstr), fs3,
                  [Event.createActual, Event.runPsql] ++ evs ++ [Event.runDiffCmd]⟩
              else
                ⟨Status.passed, fs3,
                  [Event.createActual, Event.runPsql] ++ evs ++ [Event.runDiffCmd]⟩

/-- Result of one `Run`: its status, the database name it provisioned, the
file system afterwards, and the full ordered trace. -/
structure RunOut where
  status : Status
  dbname : String
  fs : FS
  events : List Event
deriving DecidableEq, Repr

/-- `Run` (part_000 lines 198-234): generate the timestamp database name,
`CREATE DATABASE` (returning on failure with nothing else attempted), defer
the `DROP DATABASE` whose own failure is only logged, point the per-testcase
config at the new database, then setup hook, `exec`, teardown hook, each
returning its error immediately.  The deferred drop runs on every exit path
after a successful create — error returns and panics included. -/
def RunT (rvalid : String → Bool) (rmatch : String → String → Bool)
    (args : Arguments) (adminURL : GoURL) (w : World) (tc : Testcase) (fs : FS) : RunOut :=
  let dbname := dbNameOf w.now
  if !w.createOK then
    ⟨Status.failed RunError.createDatabase, dbname, fs, [Event.createDatabase dbname]⟩
  else
    let env := hookEnv args adminURL tc dbname
    let finish : Status → FS → List Event → RunOut := fun st fs' evs =>
      ⟨st, dbname, fs',
        Event.createDatabase dbname :: (evs ++ [Event.dropDatabase dbname w.dropOK])⟩
    let setupEvs := if args.valueSetup = "" then [] else [Event.runSetup env]
    if args.valueSetup != "" && !w.setupOK then
      finish (Status.failed RunError.runSetup) fs setupEvs
    else
      let ex := execT rvalid rmatch args w tc fs
      match ex.status with
      | Status.failed e => finish (Status.failed e) ex.fs (setupEvs ++ ex.events)
      | Status.panicked m => finish (Status.panicked m) ex.fs (setupEvs ++ ex.events)
      | Status.passed =>
        let tdEvs := if args.valueTeardown = "" then [] else [Event.runTeardown env]
        if args.valueTeardown != "" && !w.teardownOK then
          finish (Status.failed RunError.runTeardown) ex.fs (setupEvs ++ ex.events ++ tdEvs)
        else
          finish Status.passed ex.fs (setupEvs ++ ex.events ++ tdEvs)

/-- Whether an event is a setup-hook invocation. -/
def isSetupEv : Event → Bool
  | Event.runSetup _ => true
  | _ => false

/-- Whether an event is a teardown-hook invocation. -/
def isTeardownEv : Event → Bool
  | Event.runTeardown _ => true
  | _ => false

/-- Whether an event is the `psql` script execution. -/
def isPsqlEv : Event → Bool
  | Event.runPsql => true
  | _ => false

/-- Whether a trace contains a teardown-hook invocation. -/
def teardownRan (r : RunOut) : Bool := r.events.any isTeardownEv

/-- Whether a trace contains the `psql` script execution. -/
def psqlRan (r : RunOut) : Bool := r.events.any isPsqlEv

/-- The stages that must succeed for `exec` to reach the comparison/approval
step: database created, setup absent or successful, actual-output file
created, both pipes wired, `psql` exited zero, the file synced, `os.Stat`
behaved normally and (if needed) the empty expected file could be created. -/
def reachesComparison (args : Arguments) (w : World) : Prop :=
  w.createOK = true ∧ (args.valueSetup = "" ∨ w.setupOK = true) ∧
  w.createActualOK = true ∧ w.stdoutPipeOK = true ∧ w.stderrPipeOK = true ∧
  w.psqlOK = true ∧ w.syncOK = true ∧ w.statOK = true ∧ w.createExpectedOK = true

instance (args : Arguments) (w : World) : Decidable (reachesComparison args w) := by
  unfold reachesComparison
  infer_instance

section ConcreteInputs

/-- Regex oracle accepting every pattern (matching Go on the patterns the
sample runs use, such as `"."`). -/
def rvAll : String → Bool := fun _ => true

/-- Match oracle under which every compiled pattern matches every value
(matching Go for the match-all pattern `"."` on non-empty names). -/
def rmAll : String → String → Bool := fun _ _ => true

/-- Regex-validity oracle recording that Go rejects the pattern `"("`
(`error parsing regexp: missing closing )`). -/
def rvParen : String → Bool := fun p => !(p = "(")

/-- Arguments of a plain run: no hooks, no approve filter, match-all `--run`. -/
def args0 : Arguments := ⟨"in", "expected", "", "", "", "."⟩

/-- The default `--db` URI of the tool, parsed. -/
def url0 : GoURL :=
  ⟨"postgres", some "postgres:postgres", "localhost:5432", "/postgres", "sslmode=disable", ""⟩

/-- A sample wall-clock instant. -/
def t0 : GoTime := ⟨2023, 2, 13, 12, 1, 35⟩

/-- A world where every external effect succeeds, `psql` prints `"out\n"`,
and the diff is empty. -/
def w0 : World :=
  { now := t0
    createOK := true
    dropOK := true
    setupOK := true
    teardownOK := true
    createActualOK := true
    stdoutPipeOK := true
    stderrPipeOK := true
    psqlOK := true
    psqlOut := "out\n"
    syncOK := true
    statOK := true
    createExpectedOK := true
    copyOpenOK := true
    copyCreateOK := true
    copyDataOK := true
    diffExitOK := true
    diffStdout := "" }

/-- A sample test case, `math.sql`. -/
def tc0 : Testcase := ⟨"math", "math.sql"⟩

/-- A second, distinct sample test case. -/
def tc1 : Testcase := ⟨"join", "join.sql"⟩

/-- A file system where the expected file holds `"out\n"` and the actual
file does not exist yet. -/
def fs0 : FS := ⟨some "out\n", none⟩

/-- A file system where neither file exists yet. -/
def fsEmpty : FS := ⟨none, none⟩

/-- `args0` with a `--setup` command configured. -/
def argsSetup : Arguments := { args0 with valueSetup := "./setup.sh" }

/-- `args0` with a `--teardown` command configured. -/
def argsTd : Arguments := { args0 with valueTeardown := "./teardown.sh" }

/-- `args0` with `--approve .` configured. -/
def argsApprove : Arguments := { args0 with valueApprove := "." }

/-- `w0` with a failing setup hook. -/
def wSetupFail : World := { w0 with setupOK := false }

/-- `w0` where `diff` exits non-zero and prints `"DIFF"`. -/
def wDiffFail : World := { w0 with diffExitOK := false, diffStdout := "DIFF" }

/-- The instant one second after `t0`. -/
def t1 : GoTime := ⟨2023, 2, 13, 12, 1, 36⟩

/-- `w0` observed one second later. -/
def w1 : World := { w0 with now := t1 }

end ConcreteInputs

/-! ## C9 — `updateDatabaseURI` changes only the path -/

/-- C9: for every successfully parsed connection URI and every database
name, `updateDatabaseURI` sets the path component to `"/" + dbname` and
leaves the scheme, user info, host (with port) and query — and the fragment
— of the URI unchanged. -/
theorem updateDatabaseURI_only_path (u : GoURL) (dbname : String) :
    (updateDatabaseURI u dbname).scheme = u.scheme ∧
    (updateDatabaseURI u dbname).userinfo = u.userinfo ∧
    (updateDatabaseURI u dbname).host = u.host ∧
    (updateDatabaseURI u dbname).rawQuery = u.rawQuery ∧
    (updateDatabaseURI u dbname).fragment = u.fragment ∧
    (updateDatabaseURI u dbname).path = "/" ++ dbname :=
  ⟨rfl, rfl, rfl, rfl, rfl, rfl⟩

/-! ## Helper lemmas about the embedded pipeline -/

/-- A string has length zero exactly when it is empty. -/
theorem string_length_eq_zero {s : String} : s.length = 0 ↔ s = "" := by
  cases s with
  | mk data =>
    constructor
    · intro h
      have hd : data = [] := List.length_eq_zero.mp h
      subst hd
      rfl
    · intro h
      have hd : data = [] := congrArg String.data h
      subst hd
      rfl

/-- The `exec` stage never reads the outcome of the deferred drop. -/
theorem execT_dropOK_irrelevant (rvalid : String → Bool) (rmatch : String → String → Bool)
    (args : Arguments) (w : World) (tc : Testcase) (fs : FS) (b : Bool) :
    execT rvalid rmatch args { w with dropOK := b } tc fs = execT rvalid rmatch args w tc fs :=
  rfl

/-- After a successful `CREATE DATABASE`, the deferred drop is in `Run`'s
trace. -/
theorem run_drop_mem (rvalid : String → Bool) (rmatch : String → String → Bool)
    (args : Arguments) (adminURL : GoURL) (w : World) (tc : Testcase) (fs : FS)
    (hc : w.createOK = true) :
    Event.dropDatabase (dbNameOf w.now) w.dropOK ∈
      (RunT rvalid rmatch args adminURL w tc fs).events := by
  unfold RunT
  simp only [hc, Bool.not_true, Bool.false_eq_true, if_false]
  split
  · simp
  · split
    · simp
    · simp
    · split <;> simp

/-- `Run`'s returned status does not depend on whether the deferred drop
succeeds. -/
theorem run_drop_status (rvalid : String → Bool) (rmatch : String → String → Bool)
    (args : Arguments) (adminURL : GoURL) (w : World) (tc : Testcase) (fs : FS) (b : Bool)
    (hc : w.createOK = true) :
    (RunT rvalid rmatch args adminURL { w with dropOK := b } tc fs).status =
      (RunT rvalid rmatch args adminURL w tc fs).status := by
  have hex : execT rvalid rmatch args { w with dropOK := b } tc fs =
      execT rvalid rmatch args w tc fs := rfl
  unfold RunT
  dsimp only
  rw [hex]
  simp only [hc, Bool.not_true, Bool.false_eq_true, if_false]
  by_cases hs : (args.valueSetup != "" && !w.setupOK) = true
  · simp only [hs, if_true]
  · simp only [hs, if_false, Bool.false_eq_true]
    cases hst : (execT rvalid rmatch args w tc fs).status <;> simp only [hst]
    by_cases htd : (args.valueTeardown != "" && !w.teardownOK) = true
    · simp only [htd, if_true]
    · simp only [htd, if_false, Bool.false_eq_true]

/-- `ensureFileExists` only ever records the creation of the expected file. -/
theorem ensure_events_create (w : World) (fs : FS) :
    ∀ e ∈ (ensureExpectedT w fs).2.2, e = Event.createExpected := by
  unfold ensureExpectedT
  by_cases h : w.statOK = false
  · simp [h]
  · cases hfse : fs.expected <;> cases hce : w.createExpectedOK <;> simp [h, hfse, hce]

/-- The `exec` stage never invokes a setup or teardown hook. -/
theorem execT_hooks_free (rvalid : String → Bool) (rmatch : String → String → Bool)
    (args : Arguments) (w : World) (tc : Testcase) (fs : FS) :
    ((execT rvalid rmatch args w tc fs).events.all fun e => !isSetupEv e && !isTeardownEv e) = true := by
  unfold execT
  cases h1 : w.createActualOK
  · simp [h1, isSetupEv, isTeardownEv]
  · cases h2 : w.stdoutPipeOK
    · simp [h1, h2, isSetupEv, isTeardownEv]
    · cases h3 : w.stderrPipeOK
      · simp [h1, h2, h3, isSetupEv, isTeardownEv]
      · cases h4 : w.psqlOK
        · simp [h1, h2, h3, h4, isSetupEv, isTeardownEv]
        · cases h5 : w.syncOK
          · simp [h1, h2, h3, h4, h5, isSetupEv, isTeardownEv]
          · rcases hens : ensureExpectedT w { fs with actual := some w.psqlOut } with ⟨oe, fs3, evs⟩
            have hevs : ∀ e ∈ evs, e = Event.createExpected := by
              have h := ensure_events_create w { fs with actual := some w.psqlOut }
              rw [hens] at h
              exact h
            have hanyB : (evs.all fun e => !isSetupEv e && !isTeardownEv e) = true := by
              rw [List.all_eq_true]
              intro x hx
              rw [hevs x hx]
              rfl
            cases oe
            · rcases hap : approvedT rvalid rmatch args tc.Name with ⟨b⟩ | ⟨m⟩
              · cases b
                · rcases hrd : runDiffT w with e | d
                  · simp [h1, h2, h3, h4, h5, hens, hap, hrd, hanyB, isSetupEv, isTeardownEv] <;>
                      (intro x hx
                       rw [hevs x hx]
                       exact ⟨rfl, rfl⟩)
                  · by_cases hdl : 0 < (d.getD "").length <;>
                      simp [h1, h2, h3, h4, h5, hens, hap, hrd, hdl, hanyB, isSetupEv, isTeardownEv] <;>
                        (intro x hx
                         rw [hevs x hx]
                         exact ⟨rfl, rfl⟩)
                · rcases hcf : copyFileT w fs3 with ⟨oe2, fs4⟩
                  cases oe2 <;>
                    simp [h1, h2, h3, h4, h5, hens, hap, hcf, hanyB, isSetupEv, isTeardownEv] <;>
                      (intro x hx
                       rw [hevs x hx]
                       exact ⟨rfl, rfl⟩)
              · simp [h1, h2, h3, h4, h5, hens, hap, hanyB, isSetupEv, isTeardownEv] <;>
                  (intro x hx
                   rw [hevs x hx]
                   exact ⟨rfl, rfl⟩)
            · simp [h1, h2, h3, h4, h5, hens, hanyB, isSetupEv, isTeardownEv] <;>
                (intro x hx
                 rw [hevs x hx]
                 exact ⟨rfl, rfl⟩)

/-- Explicit form of `Run`'s trace after a successful `CREATE DATABASE`. -/
theorem RunT_events_shape (rvalid : String → Bool) (rmatch : String → String → Bool)
    (args : Arguments) (adminURL : GoURL) (w : World) (tc : Testcase) (fs : FS)
    (hc : w.createOK = true) :
    (RunT rvalid rmatch args adminURL w tc fs).events =
      Event.createDatabase (dbNameOf w.now) ::
        ((if args.valueSetup = "" then []
          else [Event.runSetup (hookEnv args adminURL tc (dbNameOf w.now))]) ++
         ((if (args.valueSetup != "" && !w.setupOK) = true then []
           else (execT rvalid rmatch args w tc fs).events ++
             (if (execT rvalid rmatch args w tc fs).status = Status.passed then
                (if args.valueTeardown = "" then []
                 else [Event.runTeardown (hookEnv args adminURL tc (dbNameOf w.now))])
              else [])) ++
          [Event.dropDatabase (dbNameOf w.now) w.dropOK])) := by
  unfold RunT
  simp only [hc, Bool.not_true, Bool.false_eq_true, if_false]
  by_cases hguard : (args.valueSetup != "" && !w.setupOK) = true
  · simp [hguard]
  · simp only [hguard, if_false, Bool.false_eq_true]
    cases hst2 : (execT rvalid rmatch args w tc fs).status <;>
      by_cases htg : (args.valueTeardown != "" && !w.teardownOK) = true <;>
        simp [hst2, htg, List.append_assoc]

/-- The database name `Run` provisions is derived from the sampled clock
instant alone. -/
theorem RunT_dbname (rvalid : String → Bool) (rmatch : String → String → Bool)
    (args : Arguments) (adminURL : GoURL) (w : World) (tc : Testcase) (fs : FS) :
    (RunT rvalid rmatch args adminURL w tc fs).dbname = dbNameOf w.now := by
  unfold RunT
  dsimp only
  repeat' split
  all_goals rfl

/-- Once the comparison step is reached, `exec` leaves the expected file in
place (creating it when absent) and never fails for its mere absence. -/
theorem exec_expected_test (rvalid : String → Bool) (rmatch : String → String → Bool)
    (args : Arguments) (w : World) (tc : Testcase) (fs : FS)
    (hca : w.createActualOK = true) (hsp : w.stdoutPipeOK = true) (hep : w.stderrPipeOK = true)
    (hq : w.psqlOK = true) (hsy : w.syncOK = true) (hst : w.statOK = true)
    (hce : w.createExpectedOK = true) :
    ((execT rvalid rmatch args w tc fs).fs.expected).isSome = true ∧
    (fs.expected = none → Event.createExpected ∈ (execT rvalid rmatch args w tc fs).events) ∧
    (execT rvalid rmatch args w tc fs).status ≠ Status.failed RunError.statExpected ∧
    (execT rvalid rmatch args w tc fs).status ≠ Status.failed RunError.createExpected := by
  unfold execT ensureExpectedT copyFileT runDiffT
  rcases hap : approvedT rvalid rmatch args tc.Name with ⟨b⟩ | ⟨m⟩
  · cases b
    · cases hde : w.diffExitOK <;> by_cases hdl : w.diffStdout.length = 0 <;>
        cases hfse : fs.expected <;>
          simp [hca, hsp, hep, hq, hsy, hst, hce, hfse, hap, hde, hdl] <;>
            (split <;> simp)
    · cases hop : w.copyOpenOK <;> cases hcc2 : w.copyCreateOK <;> cases hcd : w.copyDataOK <;>
        cases hfse : fs.expected <;>
          simp [hca, hsp, hep, hq, hsy, hst, hce, hfse, hap, hop, hcc2, hcd]
  · cases hfse : fs.expected <;> simp [hca, hsp, hep, hq, hsy, hst, hce, hfse, hap]

/-- Two decimal digit characters agree only on equal digits. -/
theorem digitChar_inj_fin : ∀ a b : Fin 10, digitChar a.val = digitChar b.val → a = b := by decide

/-- `digitChar` is injective on digits. -/
theorem digitChar_inj {a b : Nat} (ha : a < 10) (hb : b < 10)
    (h : digitChar a = digitChar b) : a = b := by
  have h2 := digitChar_inj_fin ⟨a, ha⟩ ⟨b, hb⟩ h
  exact congrArg Fin.val h2

/-- The fourteen-digit timestamp rendering is injective on in-range time
fields. -/
theorem goTimeFormat14_inj {t t' : GoTime}
    (hy : t.year < 10000) (hy' : t'.year < 10000)
    (hmo : t.month < 100) (hmo' : t'.month < 100)
    (hd : t.day < 100) (hd' : t'.day < 100)
    (hh : t.hour < 100) (hh' : t'.hour < 100)
    (hmi : t.minute < 100) (hmi' : t'.minute < 100)
    (hs : t.second < 100) (hs' : t'.second < 100)
    (h : goTimeFormat14 t = goTimeFormat14 t') : t = t' := by
  unfold goTimeFormat14 fourDigits twoDigits at h
  have hl := congrArg String.data h
  simp only [List.cons_append, List.nil_append, List.cons.injEq, and_true] at hl
  obtain ⟨e1, e2, e3, e4, e5, e6, e7, e8, e9, e10, e11, e12, e13, e14⟩ := hl
  have q1 := digitChar_inj (by omega) (by omega) e1
  have q2 := digitChar_inj (by omega) (by omega) e2
  have q3 := digitChar_inj (by omega) (by omega) e3
  have q4 := digitChar_inj (by omega) (by omega) e4
  have q5 := digitChar_inj (by omega) (by omega) e5
  have q6 := digitChar_inj (by omega) (by omega) e6
  have q7 := digitChar_inj (by omega) (by omega) e7
  have q8 := digitChar_inj (by omega) (by omega) e8
  have q9 := digitChar_inj (by omega) (by omega) e9
  have q10 := digitChar_inj (by omega) (by omega) e10
  have q11 := digitChar_inj (by omega) (by omega) e11
  have q12 := digitChar_inj (by omega) (by omega) e12
  have q13 := digitChar_inj (by omega) (by omega) e13
  have q14 := digitChar_inj (by omega) (by omega) e14
  cases t
  cases t'
  simp only at q1 q2 q3 q4 q5 q6 q7 q8 q9 q10 q11 q12 q13 q14 hy hy' hmo hmo' hd hd' hh hh' hmi hmi' hs hs'
  simp only [GoTime.mk.injEq]
  omega

/-- Appending to a fixed string on the left is injective. -/
theorem string_append_left_cancel {s a b : String} (h : s ++ a = s ++ b) : a = b := by
  cases s with
  | mk sd =>
    cases a with
    | mk ad =>
      cases b with
      | mk bd =>
        have h2 : sd ++ ad = sd ++ bd := congrArg String.data h
        exact congrArg String.mk (List.append_cancel_left h2)

/-- The generated database name is injective on in-range clock instants. -/
theorem dbNameOf_inj {t t' : GoTime}
    (hy : t.year < 10000) (hy' : t'.year < 10000)
    (hmo : t.month < 100) (hmo' : t'.month < 100)
    (hd : t.day < 100) (hd' : t'.day < 100)
    (hh : t.hour < 100) (hh' : t'.hour < 100)
    (hmi : t.minute < 100) (hmi' : t'.minute < 100)
    (hs : t.second < 100) (hs' : t'.second < 100)
    (h : dbNameOf t = dbNameOf t') : t = t' := by
  unfold dbNameOf at h
  exact goTimeFormat14_inj hy hy' hmo hmo' hd hd' hh hh' hmi hmi' hs hs'
    (string_append_left_cancel h)

/-! ## C1 — the deferred drop always runs; its failure is only logged -/

/-- C1: for every test case whose database creation succeeded, the deferred
drop of that database is in `Run`'s trace before `Run` returns, regardless
of which later stage failed, and the status `Run` returns is independent of
whether the drop succeeds — a drop failure is only logged and can never
become the test case's failure result or flip a pass into a fail. -/
theorem run_always_drops_database (rvalid : String → Bool) (rmatch : String → String → Bool)
    (args : Arguments) (adminURL : GoURL) (w : World) (tc : Testcase) (fs : FS) (b : Bool)
    (hc : w.createOK = true) :
    Event.dropDatabase (dbNameOf w.now) w.dropOK ∈
      (RunT rvalid rmatch args adminURL w tc fs).events ∧
    (RunT rvalid rmatch args adminURL { w with dropOK := b } tc fs).status =
      (RunT rvalid rmatch args adminURL w tc fs).status :=
  ⟨run_drop_mem rvalid rmatch args adminURL w tc fs hc,
   run_drop_status rvalid rmatch args adminURL w tc fs b hc⟩

/-- Witness for C1 at a concrete run where everything succeeds and the
alternative drop outcome is failure. -/
theorem run_always_drops_database_witness :
    Event.dropDatabase (dbNameOf w0.now) w0.dropOK ∈
      (RunT rvAll rmAll args0 url0 w0 tc0 fs0).events ∧
    (RunT rvAll rmAll args0 url0 { w0 with dropOK := false } tc0 fs0).status =
      (RunT rvAll rmAll args0 url0 w0 tc0 fs0).status :=
  run_always_drops_database rvAll rmAll args0 url0 w0 tc0 fs0 false rfl

/-! ## C2 — comparison fails exactly on a non-empty diff, carrying its text -/

/-- C2: for every test case not in approve mode that reaches the comparison
step, when the diff tool behaves canonically (zero exit and empty stdout
exactly when the files agree, non-zero exit with the diff on stdout
otherwise), the test case fails at the comparison stage if and only if the
diff text is non-empty, that failure carries the diff text as its
diagnostic detail, and an empty diff lets the run proceed to a pass. -/
theorem comparison_fails_iff_diff_nonempty (rvalid : String → Bool) (rmatch : String → String → Bool)
    (args : Arguments) (adminURL : GoURL) (w : World) (tc : Testcase) (fs : FS) (diffText : String)
    (hr : reachesComparison args w)
    (happ : approvedT rvalid rmatch args tc.Name = GoResult.ok false)
    (hexit : w.diffExitOK = true ↔ diffText = "")
    (hout : w.diffStdout = diffText)
    (htd : args.valueTeardown = "" ∨ w.teardownOK = true) :
    (RunT rvalid rmatch args adminURL w tc fs).status =
      (if diffText = "" then Status.passed
       else Status.failed (RunError.diffNotEmpty diffText)) ∧
    Event.runDiffCmd ∈ (RunT rvalid rmatch args adminURL w tc fs).events := by
  obtain ⟨hc, hsu, hca, hsp, hep, hq, hsy, hst, hce⟩ := hr
  have hguard : (args.valueSetup != "" && !w.setupOK) = false := by
    rcases hsu with h | h <;> simp [h]
  unfold RunT execT ensureExpectedT runDiffT
  by_cases hdt : diffText = ""
  · have hde : w.diffExitOK = true := hexit.mpr hdt
    rcases htd with h | h <;>
      cases hfse : fs.expected <;>
        simp [hc, hca, hsp, hep, hq, hsy, hst, hce, hguard, happ, hde, hdt, h, hfse]
  · have hde : w.diffExitOK = false := by
      cases hde : w.diffExitOK
      · rfl
      · exact absurd (hexit.mp hde) hdt
    have hlen : ¬ diffText.length = 0 := fun hzero => hdt (string_length_eq_zero.mp hzero)
    have hpos : 0 < diffText.length := Nat.pos_of_ne_zero hlen
    cases hfse : fs.expected <;>
      simp [hc, hca, hsp, hep, hq, hsy, hst, hce, hguard, happ, hde, hdt, hout, hlen, hpos, hfse]

/-- Witness for C2 at a run whose diff tool reports the non-empty diff
`"DIFF"`. -/
theorem comparison_fails_iff_diff_nonempty_witness :
    (RunT rvAll rmAll args0 url0 wDiffFail tc0 fs0).status =
      (if ("DIFF" : String) = "" then Status.passed
       else Status.failed (RunError.diffNotEmpty "DIFF")) ∧
    Event.runDiffCmd ∈ (RunT rvAll rmAll args0 url0 wDiffFail tc0 fs0).events :=
  comparison_fails_iff_diff_nonempty rvAll rmAll args0 url0 wDiffFail tc0 fs0 "DIFF"
    (by decide) rfl (by decide) rfl (Or.inl rfl)

/-! ## C3 — approve mode skips the diff and overwrites the expected file -/

/-- C3: for every test case whose name matches the configured approve
filter and that reaches the comparison step, the diff is never invoked, the
expected-output file is overwritten verbatim with the contents of the
actual-output file, and the test case passes (provided the copy, and the
teardown if configured, succeed). -/
theorem approve_overwrites_expected_and_passes (rvalid : String → Bool) (rmatch : String → String → Bool)
    (args : Arguments) (adminURL : GoURL) (w : World) (tc : Testcase) (fs : FS)
    (hr : reachesComparison args w)
    (happ : approvedT rvalid rmatch args tc.Name = GoResult.ok true)
    (hco : w.copyOpenOK = true) (hcc : w.copyCreateOK = true) (hcd : w.copyDataOK = true)
    (htd : args.valueTeardown = "" ∨ w.teardownOK = true) :
    (RunT rvalid rmatch args adminURL w tc fs).status = Status.passed ∧
    (RunT rvalid rmatch args adminURL w tc fs).fs.expected =
      (RunT rvalid rmatch args adminURL w tc fs).fs.actual ∧
    (RunT rvalid rmatch args adminURL w tc fs).fs.actual = some w.psqlOut ∧
    Event.approveCopy ∈ (RunT rvalid rmatch args adminURL w tc fs).events ∧
    Event.runDiffCmd ∉ (RunT rvalid rmatch args adminURL w tc fs).events := by
  obtain ⟨hc, hsu, hca, hsp, hep, hq, hsy, hst, hce⟩ := hr
  have hguard : (args.valueSetup != "" && !w.setupOK) = false := by
    rcases hsu with h | h <;> simp [h]
  unfold RunT execT ensureExpectedT copyFileT
  rcases htd with h | h <;>
    cases hfse : fs.expected <;>
      simp [hc, hca, hsp, hep, hq, hsy, hst, hce, hguard, happ, hco, hcc, hcd, h, hfse]

/-- Witness for C3 at a concrete approved run. -/
theorem approve_overwrites_expected_and_passes_witness :
    (RunT rvAll rmAll argsApprove url0 w0 tc0 fs0).status = Status.passed ∧
    (RunT rvAll rmAll argsApprove url0 w0 tc0 fs0).fs.expected =
      (RunT rvAll rmAll argsApprove url0 w0 tc0 fs0).fs.actual ∧
    (RunT rvAll rmAll argsApprove url0 w0 tc0 fs0).fs.actual = some w0.psqlOut ∧
    Event.approveCopy ∈ (RunT rvAll rmAll argsApprove url0 w0 tc0 fs0).events ∧
    Event.runDiffCmd ∉ (RunT rvAll rmAll argsApprove url0 w0 tc0 fs0).events :=
  approve_overwrites_expected_and_passes rvAll rmAll argsApprove url0 w0 tc0 fs0
    (by decide) rfl rfl rfl rfl (Or.inl rfl)

/-! ## C7 — a setup failure skips the script and teardown, but not the drop -/

/-- C7: for every test case with a configured setup command whose setup
hook fails after a successful database creation, the SQL script is not
executed, the teardown hook is not run, the test case's result is the
Setup-stage failure, and the provisioned database is still dropped. -/
theorem setup_failure_skips_script_and_teardown (rvalid : String → Bool) (rmatch : String → String → Bool)
    (args : Arguments) (adminURL : GoURL) (w : World) (tc : Testcase) (fs : FS)
    (hc : w.createOK = true) (hs : args.valueSetup ≠ "") (hf : w.setupOK = false) :
    (RunT rvalid rmatch args adminURL w tc fs).status = Status.failed RunError.runSetup ∧
    psqlRan (RunT rvalid rmatch args adminURL w tc fs) = false ∧
    teardownRan (RunT rvalid rmatch args adminURL w tc fs) = false ∧
    Event.dropDatabase (dbNameOf w.now) w.dropOK ∈
      (RunT rvalid rmatch args adminURL w tc fs).events := by
  unfold RunT
  simp [psqlRan, teardownRan, isPsqlEv, isTeardownEv, hc, hs, hf]

/-- Witness for C7 at a concrete run whose setup hook fails. -/
theorem setup_failure_skips_script_and_teardown_witness :
    (RunT rvAll rmAll argsSetup url0 wSetupFail tc0 fs0).status =
      Status.failed RunError.runSetup ∧
    psqlRan (RunT rvAll rmAll argsSetup url0 wSetupFail tc0 fs0) = false ∧
    teardownRan (RunT rvAll rmAll argsSetup url0 wSetupFail tc0 fs0) = false ∧
    Event.dropDatabase (dbNameOf wSetupFail.now) wSetupFail.dropOK ∈
      (RunT rvAll rmAll argsSetup url0 wSetupFail tc0 fs0).events :=
  setup_failure_skips_script_and_teardown rvAll rmAll argsSetup url0 wSetupFail tc0 fs0
    rfl (by decide) rfl

/-! ## C4 — teardown only runs on the success path (corrected) -/

/-- C4 counterexample: a run with a configured teardown command whose
comparison fails (non-empty diff `"DIFF"`): the teardown hook is never
invoked, refuting that it runs regardless of a comparison failure. -/
theorem teardown_skipped_on_comparison_failure :
    teardownRan (RunT rvAll rmAll argsTd url0 wDiffFail tc0 fs0) = false ∧
    (RunT rvAll rmAll argsTd url0 wDiffFail tc0 fs0).status =
      Status.failed (RunError.diffNotEmpty "DIFF") :=
  ⟨rfl, rfl⟩

/-- C4 (amended): after a successful database creation, the teardown hook
runs exactly when a teardown command is configured, setup did not fail, and
the execution-and-comparison stage passed; and every setup or teardown hook
in the trace receives the same environment contract, built by `hookEnv`. -/
theorem teardown_runs_only_on_success_path (rvalid : String → Bool) (rmatch : String → String → Bool)
    (args : Arguments) (adminURL : GoURL) (w : World) (tc : Testcase) (fs : FS)
    (hc : w.createOK = true) :
    (teardownRan (RunT rvalid rmatch args adminURL w tc fs) = true ↔
      args.valueTeardown ≠ "" ∧ (args.valueSetup != "" && !w.setupOK) = false ∧
      (execT rvalid rmatch args w tc fs).status = Status.passed) ∧
    ((RunT rvalid rmatch args adminURL w tc fs).events.all fun e =>
       match e with
       | Event.runSetup env => decide (env = hookEnv args adminURL tc (dbNameOf w.now))
       | Event.runTeardown env => decide (env = hookEnv args adminURL tc (dbNameOf w.now))
       | _ => true) = true := by
  have hfree := execT_hooks_free rvalid rmatch args w tc fs
  rw [List.all_eq_true] at hfree
  have hanyT : ((execT rvalid rmatch args w tc fs).events.any isTeardownEv) = false := by
    rw [List.any_eq_false]
    intro e he
    have h := hfree _ he
    simp only [Bool.and_eq_true, Bool.not_eq_true'] at h
    simp [h.2]
  constructor
  · rw [teardownRan, RunT_events_shape rvalid rmatch args adminURL w tc fs hc]
    by_cases hvs : args.valueSetup = "" <;>
      by_cases hguard : (args.valueSetup != "" && !w.setupOK) = true <;>
        by_cases hvt : args.valueTeardown = "" <;>
          cases hst2 : (execT rvalid rmatch args w tc fs).status <;>
            simp [hvs, hguard, hvt, hst2, hanyT, isTeardownEv] <;>
              (intro x hx
               have hx2 := hfree x hx
               simp only [Bool.and_eq_true, Bool.not_eq_true'] at hx2
               exact hx2.2)
  · rw [List.all_eq_true, RunT_events_shape rvalid rmatch args adminURL w tc fs hc]
    intro e he
    simp only [List.mem_cons, List.mem_append] at he
    rcases he with rfl | he
    · rfl
    · rcases he with he | he
      · split at he
        · simp at he
        · simp only [List.mem_singleton] at he
          subst he
          simp
      · rcases he with he | he
        · split at he
          · simp at he
          · rcases List.mem_append.mp he with h2 | h2
            · have hb2 := hfree e h2
              simp only [Bool.and_eq_true, Bool.not_eq_true'] at hb2
              cases e <;> simp_all [isSetupEv, isTeardownEv]
            · by_cases hps : (execT rvalid rmatch args w tc fs).status = Status.passed
              · by_cases hvt : args.valueTeardown = ""
                · simp [hps, hvt] at h2
                · simp [hps, hvt] at h2
                  subst h2
                  simp
              · rw [if_neg hps] at h2
                exact absurd h2 (List.not_mem_nil e)
        · rcases he with he | he
          · subst he
            rfl
          · exact absurd he (List.not_mem_nil e)

/-- Witness for the amended C4 at a concrete run with a teardown command
whose every stage succeeds. -/
theorem teardown_runs_only_on_success_path_witness :
    (teardownRan (RunT rvAll rmAll argsTd url0 w0 tc0 fs0) = true ↔
      argsTd.valueTeardown ≠ "" ∧ (argsTd.valueSetup != "" && !w0.setupOK) = false ∧
      (execT rvAll rmAll argsTd w0 tc0 fs0).status = Status.passed) ∧
    ((RunT rvAll rmAll argsTd url0 w0 tc0 fs0).events.all fun e =>
       match e with
       | Event.runSetup env => decide (env = hookEnv argsTd url0 tc0 (dbNameOf w0.now))
       | Event.runTeardown env => decide (env = hookEnv argsTd url0 tc0 (dbNameOf w0.now))
       | _ => true) = true :=
  teardown_runs_only_on_success_path rvAll rmAll argsTd url0 w0 tc0 fs0 rfl

/-! ## C5 — timestamp-only database names collide within a second (corrected) -/

/-- C5 counterexample: two distinct test-case executions starting within
the same wall-clock second receive the same database name, refuting that
generated names are always distinct. -/
theorem same_second_database_name_collision :
    tc0 ≠ tc1 ∧
    (RunT rvAll rmAll args0 url0 w0 tc0 fs0).dbname =
      (RunT rvAll rmAll args0 url0 w0 tc1 fsEmpty).dbname :=
  ⟨by decide, rfl⟩

/-- C5 (amended): the generated per-test-case database names are distinct
exactly as far as the sampled wall-clock seconds are: two executions whose
`time.Now()` instants (with in-range date fields) differ get distinct
names, while executions within the same second collide. -/
theorem distinct_seconds_give_distinct_database_names
    (rvalid rvalid' : String → Bool) (rmatch rmatch' : String → String → Bool)
    (args args' : Arguments) (adminURL adminURL' : GoURL) (w w' : World)
    (tc tc' : Testcase) (fs fs' : FS)
    (hy : w.now.year < 10000) (hy' : w'.now.year < 10000)
    (hmo : w.now.month < 100) (hmo' : w'.now.month < 100)
    (hd : w.now.day < 100) (hd' : w'.now.day < 100)
    (hh : w.now.hour < 100) (hh' : w'.now.hour < 100)
    (hmi : w.now.minute < 100) (hmi' : w'.now.minute < 100)
    (hs : w.now.second < 100) (hs' : w'.now.second < 100)
    (hne : w.now ≠ w'.now) :
    (RunT rvalid rmatch args adminURL w tc fs).dbname ≠
      (RunT rvalid' rmatch' args' adminURL' w' tc' fs').dbname := by
  rw [RunT_dbname, RunT_dbname]
  intro h
  exact hne (dbNameOf_inj hy hy' hmo hmo' hd hd' hh hh' hmi hmi' hs hs' h)

/-- Witness for the amended C5 at two executions one second apart. -/
theorem distinct_seconds_give_distinct_database_names_witness :
    (RunT rvAll rmAll args0 url0 w0 tc0 fs0).dbname ≠
      (RunT rvAll rmAll args0 url0 w1 tc1 fsEmpty).dbname :=
  distinct_seconds_give_distinct_database_names rvAll rvAll rmAll rmAll args0 args0
    url0 url0 w0 w1 tc0 tc1 fs0 fsEmpty
    (by decide) (by decide) (by decide) (by decide) (by decide) (by decide)
    (by decide) (by decide) (by decide) (by decide) (by decide) (by decide)
    (by decide)

/-! ## C6 — the expected file exists once comparison is reached (corrected) -/

/-- C6 counterexample: a run whose setup hook fails never reaches the
comparison step, so after the run the expected-output file is still absent,
refuting that the file exists after any run. -/
theorem expected_file_absent_after_setup_failure :
    (RunT rvAll rmAll argsSetup url0 wSetupFail tc0 fsEmpty).fs.expected = none ∧
    (RunT rvAll rmAll argsSetup url0 wSetupFail tc0 fsEmpty).status =
      Status.failed RunError.runSetup :=
  ⟨rfl, rfl⟩

/-- C6 (amended): after any run that reaches the comparison/approval step
(provisioning, setup, script execution and output sync succeeded, `os.Stat`
behaved normally and file creation succeeds), the expected-output file
exists; if it was absent it is created (empty) at that step, and its mere
absence never produces the test case's error. -/
theorem expected_file_exists_when_comparison_reached (rvalid : String → Bool)
    (rmatch : String → String → Bool)
    (args : Arguments) (adminURL : GoURL) (w : World) (tc : Testcase) (fs : FS)
    (hr : reachesComparison args w) :
    ((RunT rvalid rmatch args adminURL w tc fs).fs.expected).isSome = true ∧
    (fs.expected = none → Event.createExpected ∈ (RunT rvalid rmatch args adminURL w tc fs).events) ∧
    (RunT rvalid rmatch args adminURL w tc fs).status ≠ Status.failed RunError.statExpected ∧
    (RunT rvalid rmatch args adminURL w tc fs).status ≠ Status.failed RunError.createExpected := by
  obtain ⟨hc, hsu, hca, hsp, hep, hq, hsy, hst, hce⟩ := hr
  have hguard : (args.valueSetup != "" && !w.setupOK) = false := by
    rcases hsu with h | h <;> simp [h]
  obtain ⟨h1, h2, h3, h4⟩ := exec_expected_test rvalid rmatch args w tc fs hca hsp hep hq hsy hst hce
  have hshape := RunT_events_shape rvalid rmatch args adminURL w tc fs hc
  refine ⟨?_, ?_, ?_, ?_⟩
  · unfold RunT
    simp only [hc, Bool.not_true, Bool.false_eq_true, if_false, hguard]
    cases hst2 : (execT rvalid rmatch args w tc fs).status <;>
      by_cases htg : (args.valueTeardown != "" && !w.teardownOK) = true <;>
        simp [hst2, htg, h1]
  · intro hn
    rw [hshape]
    have hmem := h2 hn
    simp [hguard, List.mem_append, hmem]
  · unfold RunT
    simp only [hc, Bool.not_true, Bool.false_eq_true, if_false, hguard]
    cases hst2 : (execT rvalid rmatch args w tc fs).status with
    | failed e =>
      rw [hst2] at h3
      simp only [hst2]
      simp_all
    | panicked m =>
      simp only [hst2]
      simp
    | passed =>
      simp only [hst2]
      split <;> simp
  · unfold RunT
    simp only [hc, Bool.not_true, Bool.false_eq_true, if_false, hguard]
    cases hst2 : (execT rvalid rmatch args w tc fs).status with
    | failed e =>
      rw [hst2] at h4
      simp only [hst2]
      simp_all
    | panicked m =>
      simp only [hst2]
      simp
    | passed =>
      simp only [hst2]
      split <;> simp

/-- Witness for the amended C6 at a concrete run starting with no expected
file: the file exists afterwards and its creation is in the trace. -/
theorem expected_file_exists_when_comparison_reached_witness :
    ((RunT rvAll rmAll args0 url0 w0 tc0 fsEmpty).fs.expected).isSome = true ∧
    Event.createExpected ∈ (RunT rvAll rmAll args0 url0 w0 tc0 fsEmpty).events ∧
    (RunT rvAll rmAll args0 url0 w0 tc0 fsEmpty).status ≠ Status.failed RunError.statExpected ∧
    (RunT rvAll rmAll args0 url0 w0 tc0 fsEmpty).status ≠ Status.failed RunError.createExpected :=
  have h := expected_file_exists_when_comparison_reached rvAll rmAll args0 url0 w0 tc0 fsEmpty
    (by decide)
  ⟨h.1, h.2.1 rfl, h.2.2.1, h.2.2.2⟩

/-! ## C8 — an invalid filter pattern panics instead of erroring (corrected) -/

/-- C8 counterexample: filtering one test case with the invalid pattern
`"("` (Go: `missing closing )`) makes `regexp.MustCompile` panic — the
process aborts; no `PatternError` value is ever produced, since `match` and
`filter` have no error-return channel. -/
theorem invalid_pattern_panics_counterexample :
    filterRun rvParen rmAll "(" [tc0] = GoResult.panicked (regexpPanicMsg "(") := by
  rfl

/-- C8 (amended): for every pattern the regex engine rejects, filtering a
non-empty test-case list panics out of `regexp.MustCompile` with the
compile panic message, rather than reporting an error result to the
caller; with an empty list the pattern is never compiled at all. -/
theorem invalid_pattern_panics (rvalid : String → Bool) (rmatch : String → String → Bool)
    (pattern : String) (tcs : List Testcase)
    (hinv : rvalid pattern = false) (hne : tcs ≠ []) :
    filterRun rvalid rmatch pattern tcs = GoResult.panicked (regexpPanicMsg pattern) := by
  cases tcs with
  | nil => exact absurd rfl hne
  | cons tc rest => simp [filterRun, matchT, hinv]

/-- Witness for the amended C8 at the concrete invalid pattern `"("`. -/
theorem invalid_pattern_panics_witness :
    filterRun rvParen rmAll "(" [tc1] = GoResult.panicked (regexpPanicMsg "(") :=
  invalid_pattern_panics rvParen rmAll "(" [tc1] (by decide) (by decide)

end Sqltest
